import Mathlib

/-!
Shallow embedding of `solana_token_detector.py` (Solana rugcheck detector).

JSON values as produced by `json.load` / `response.json()` are modelled by
the inductive type `JVal` (dicts are association lists of string keys, kept
as the mutual type `JFields`; JSON arrays as `JList`).  Python truthiness
(`if not x`) is `pyFalsy`, and the `x or y` fallback idiom is `pyOr`.
The monitoring loop of `start_monitoring` is embedded as a step function
`processToken` on an explicit `LoopState`, folded over polling cycles.
-/

mutual
/-- A JSON value as handled by the Python program. -/
inductive JVal where
  | jnull : JVal
  | jstr (s : String) : JVal
  | jint (n : Int) : JVal
  | jobj (fields : JFields) : JVal
  | jarr (elems : JList) : JVal
deriving DecidableEq, Repr
/-- Fields of a JSON object, as an association list. -/
inductive JFields where
  | fnil : JFields
  | fcons (key : String) (val : JVal) (rest : JFields) : JFields
deriving DecidableEq, Repr
/-- Elements of a JSON array. -/
inductive JList where
  | lnil : JList
  | lcons (head : JVal) (tail : JList) : JList
deriving DecidableEq, Repr
end

/-- Build a `JFields` from a Lean list of key-value pairs. -/
def JFields.ofList : List (String × JVal) → JFields
  | [] => .fnil
  | (k, v) :: rest => .fcons k v (JFields.ofList rest)

/-- Build a `JList` from a Lean list. -/
def JList.ofList : List JVal → JList
  | [] => .lnil
  | v :: rest => .lcons v (JList.ofList rest)

/-- Turn a `JList` back into a Lean list (used to iterate JSON arrays). -/
def JList.toList : JList → List JVal
  | .lnil => []
  | .lcons v rest => v :: rest.toList

/-- A JSON object literal. -/
def jobjL (l : List (String × JVal)) : JVal := .jobj (JFields.ofList l)

/-- A JSON array literal. -/
def jarrL (l : List JVal) : JVal := .jarr (JList.ofList l)

/-- Association-list lookup: first binding of the key, or `none`. -/
def lookupField : JFields → String → Option JVal
  | .fnil, _ => none
  | .fcons k v rest, key => if k = key then some v else lookupField rest key

/-- Python `d.get(key)`: `none` models `None` (key absent).  The program only
calls `.get` on dicts; on non-dicts we return `none`. -/
def jget (j : JVal) (key : String) : Option JVal :=
  match j with
  | .jobj fields => lookupField fields key
  | _ => none

/-- Python `d.get(key, default)`. -/
def jgetD (j : JVal) (key : String) (default : JVal) : JVal :=
  (jget j key).getD default

/-- Python truthiness on JSON values: `None`, `""`, `0`, `{}`, `[]` are falsy. -/
def pyFalsy : JVal → Bool
  | .jnull => true
  | .jstr s => s = ""
  | .jint n => n = 0
  | .jobj .fnil => true
  | .jobj _ => false
  | .jarr .lnil => true
  | .jarr _ => false

/-- Python `x or y` where `x` came from a `.get` (so it may be `None`):
yields `x` when truthy, otherwise `y`. -/
def pyOr (x : Option JVal) (y : JVal) : JVal :=
  match x with
  | none => y
  | some v => if pyFalsy v then y else v

/-- Python `isinstance(item, dict)`. -/
def isObj : JVal → Bool
  | .jobj _ => true
  | _ => false

/-- Read an integer out of an optional JSON value.  A JSON `null` (or an
absent key) maps to `none`, matching `score_normalised is None` in the
source; the program never feeds non-integer, non-null scores to the
classifier on the paths modelled here. -/
def toIntOpt : Option JVal → Option Int
  | some (.jint n) => some n
  | _ => none

example : jget (jobjL [("a", .jint 1)]) "a" = some (.jint 1) := by decide
example : pyFalsy (jobjL []) = true := by decide
example : pyOr (some (.jstr "")) (.jstr "x") = .jstr "x" := by decide

/-! ## Risk classification (`classify_risk`, source lines 120-128) -/

/-- Source `classify_risk(score_normalised, threshold)`: `UNKNOWN` on a missing
score, else `LOW` above the threshold, `MEDIUM` from 50 up to the
threshold, `HIGH` below 50. -/
def classify_risk (score_normalised : Option Int) (threshold : Int) : String :=
  match score_normalised with
  | none => "UNKNOWN"
  | some s => if s > threshold then "LOW" else if s ≥ 50 then "MEDIUM" else "HIGH"

/-! ## Field fallbacks shared by the stored entry and the console report
(source lines 132-135 and 217-226) -/

/-- Source expression `summary.get("tokenMeta", {}).get("symbol", "")`. -/
def token_meta_symbol (summary : JVal) : JVal :=
  jgetD (jgetD summary "tokenMeta" (jobjL [])) "symbol" (.jstr "")

/-- Source expression `summary.get("tokenMeta", {}).get("name", default)`. -/
def token_meta_name (summary : JVal) (default : JVal) : JVal :=
  jgetD (jgetD summary "tokenMeta" (jobjL [])) "name" default

/-- Source expression `token.get("symbol") or summary.get("tokenMeta", {}).get("symbol", "")` —
the same expression builds the entry field (line 220) and the report line
(line 133). -/
def entrySymbol (token summary : JVal) : JVal :=
  pyOr (jget token "symbol") (token_meta_symbol summary)

/-- Source expression `token.get("creator") or summary.get("creator", "")` (entry, line 221). -/
def entryCreator (token summary : JVal) : JVal :=
  pyOr (jget token "creator") (jgetD summary "creator" (.jstr ""))

/-- Source expression `token.get("creator") or summary.get("creator", "Unknown")` (report,
line 135). -/
def reportCreator (token summary : JVal) : JVal :=
  pyOr (jget token "creator") (jgetD summary "creator" (.jstr "Unknown"))

/-! ## Console report (`format_report`, source lines 130-173) -/

/-- Python `str()` of the JSON values the report interpolates.  Strings and
integers render exactly; the report never interpolates compound values on
the properties verified here, so those renderings are schematic. -/
def pyStr : JVal → String
  | .jnull => "None"
  | .jstr s => s
  | .jint n => toString n
  | .jobj _ => "\x7b...\x7d"
  | .jarr _ => "[...]"

/-- Python `"=" * 80`. -/
def eqLine : String := String.mk (List.replicate 80 '=')

/-- The recommendation table keyed by risk tier (lines 140-145).
`classify_risk` only produces the four keys of the table. -/
def recommendation_for (risk : String) : String :=
  if risk = "LOW" then "SAFE_TO_BUY"
  else if risk = "MEDIUM" then "CAUTION_ADVISED"
  else if risk = "HIGH" then "HIGH_RISK_DONT_BUY"
  else "CAUTION_ADVISED"

/-- One bullet of the risk-reasons block (lines 167-171). -/
def risk_item_line (item : JVal) : String :=
  let n := pyStr (jgetD item "name" (.jstr "Unknown Risk"))
  let d := pyStr (jgetD item "description" (.jstr ""))
  let l := pyStr (jgetD item "level" (.jstr ""))
  "    • " ++ n ++ " (" ++ l ++ ") - " ++ d

/-- Source `format_report(token, summary, detected_at, threshold)`. -/
def format_report (token summary : JVal) (detected_at : String)
    (threshold : Int) : String :=
  let mint := jgetD token "mint" (.jstr "Unknown")
  let symbol := entrySymbol token summary
  let name := token_meta_name summary
    (if pyFalsy symbol then .jstr "Unknown Token" else symbol)
  let creator := reportCreator token summary
  let scoreNorm := jget summary "score_normalised"
  let scoreDisplay :=
    match scoreNorm with
    | some .jnull => "N/A"
    | some v => pyStr v
    | none => "N/A"
  let risk := classify_risk (toIntOpt scoreNorm) threshold
  let recommendation := recommendation_for risk
  let risksList :=
    match pyOr (jget summary "risks") (jarrL []) with
    | .jarr es => es.toList
    | _ => []
  let baseLines : List String :=
    [eqLine, "🚀 NEW TOKEN DETECTED!", eqLine, "",
     "📋 TOKEN INFORMATION:",
     "✅ Token Name: " ++ pyStr name,
     "✅ Token Symbol: " ++ pyStr symbol,
     "✅ Token Mint: " ++ pyStr mint,
     "👤 Creator Wallet: " ++ pyStr creator,
     "🕒 Detection Time: " ++ detected_at, "",
     "📊 RUGCHECK ANALYSIS:",
     "- Safety Score: " ++ scoreDisplay ++ "/100",
     "- Risk Level: " ++ risk,
     "- Recommendation: " ++ recommendation]
  let riskLines :=
    if risksList.isEmpty then []
    else "- Risk Reasons:" :: risksList.map risk_item_line
  String.intercalate "\n" (baseLines ++ riskLines)

/-! ## Record store (`load_json`, `save_json`, `append_if_not_exists`,
source lines 82-96 and 175-181) -/

/-- The observable state of the backing JSON file. -/
inductive FileState where
  | absent : FileState
  | corrupt : FileState
  | content (items : List JVal) : FileState
deriving DecidableEq, Repr

/-- Source `load_json(path)`: empty list when the file is absent, or when reading
raises `JSONDecodeError`/`OSError`; otherwise the stored list. -/
def load_json : FileState → List JVal
  | .absent => []
  | .corrupt => []
  | .content items => items

/-- Source expression `{item.get("mint") for item in existing if isinstance(item, dict)}`:
the set (here a list) of mint values of the dict items. -/
def mintsOf (items : List JVal) : List (Option JVal) :=
  items.filterMap (fun it => if isObj it then some (jget it "mint") else none)

/-- Source `append_if_not_exists(path, entry)` acting on the loaded list: append
the entry unless some dict item already carries its mint. -/
def append_if_not_exists (store : List JVal) (entry : JVal) : List JVal :=
  if jget entry "mint" ∈ mintsOf store then store else store ++ [entry]

/-- Source `save_json` with an explicit write outcome: a filesystem error during
the write raises (there is no handler in `save_json` or its caller), which
the error branch records. -/
def save_json_disk (writeOk : Bool) (items : List JVal) : Except Unit FileState :=
  if writeOk then .ok (.content items) else .error ()

/-- Source `append_if_not_exists` at the file level: read (failures yield the
empty list), then append-and-write only when the mint is new.  A write
failure propagates as `.error`; when no write happens the file is
untouched. -/
def append_if_not_exists_disk (writeOk : Bool) (fs : FileState)
    (entry : JVal) : Except Unit FileState :=
  let existing := load_json fs
  if jget entry "mint" ∈ mintsOf existing then .ok fs
  else save_json_disk writeOk (existing ++ [entry])

/-! ## Token summary fetch (`fetch_token_summary`, source lines 108-118) -/

/-- The response observed for a summary request: `none` is a transport
failure (`requests.RequestException`), otherwise a status code and the
parsed JSON body. -/
def fetch_token_summary (resp : Option (Int × JVal)) : JVal :=
  match resp with
  | none => jobjL []
  | some (status, body) => if status = 200 then body else jobjL []

/-! ## Monitoring loop (`start_monitoring`, source lines 183-244) -/

/-- The per-run state of the monitoring loop: the `processed` dedup set
(a duplicate-free list), the record store contents, the trace of mints for
which a summary fetch was performed, and the reports printed so far. -/
structure LoopState where
  processed : List JVal
  store : List JVal
  fetched : List JVal
  reports : List String
deriving DecidableEq, Repr

/-- The stored entry built at source lines 217-226. -/
def buildEntry (token summary mint : JVal) (scoreNorm : Option JVal)
    (risk : String) (now : String) : JVal :=
  jobjL [("mint", mint),
         ("name", token_meta_name summary (.jstr "")),
         ("symbol", entrySymbol token summary),
         ("creator", entryCreator token summary),
         ("score_normalised", scoreNorm.getD .jnull),
         ("risk", .jstr risk),
         ("risks", jgetD summary "risks" (jarrL [])),
         ("detected_at", .jstr now)]

/-- One iteration of the `for token in tokens` body (source lines 200-236):
skip on a missing/falsy/already-processed mint; otherwise fetch the
summary (recorded in `fetched`); an unavailable (falsy) summary only marks
the mint processed; otherwise classify, store when `LOW`, and report. -/
def processToken (fetch : JVal → JVal) (threshold : Int) (now : String)
    (st : LoopState) (token : JVal) : LoopState :=
  match jget token "mint" with
  | none => st
  | some mint =>
    if pyFalsy mint = true ∨ mint ∈ st.processed then st
    else
      let summary := fetch mint
      if pyFalsy summary = true then
        { st with processed := st.processed ++ [mint],
                  fetched := st.fetched ++ [mint] }
      else
        let scoreNorm := jget summary "score_normalised"
        let risk := classify_risk (toIntOpt scoreNorm) threshold
        let entry := buildEntry token summary mint scoreNorm risk now
        { st with
          processed := st.processed ++ [mint],
          fetched := st.fetched ++ [mint],
          store := if risk = "LOW" then append_if_not_exists st.store entry
                   else st.store,
          reports := st.reports ++ [format_report token summary now threshold] }

/-- One polling cycle: a timestamp captured once, and the token list the
discovery endpoint returned, processed in order. -/
def runCycle (fetch : JVal → JVal) (threshold : Int) (st : LoopState)
    (cycle : String × List JVal) : LoopState :=
  cycle.2.foldl (processToken fetch threshold cycle.1) st

/-- A whole monitoring run over a sequence of polling cycles. -/
def runCycles (fetch : JVal → JVal) (threshold : Int) (st : LoopState)
    (cycles : List (String × List JVal)) : LoopState :=
  cycles.foldl (runCycle fetch threshold) st

/-- The state at the start of a run: `processed` starts empty (line 193);
the store file may hold anything from earlier runs. -/
def initialState (store0 : List JVal) : LoopState :=
  { processed := [], store := store0, fetched := [], reports := [] }

/-! ## Configuration (source lines 37-43, 66-80, 98-118, 293-348) -/

/-- The configuration record with its three settings. -/
structure Config where
  score_threshold : Int
  polling_interval : Int
  api_timeout : Int
deriving DecidableEq, Repr

/-- Source `DEFAULT_CONFIG` (lines 39-43). -/
def DEFAULT_CONFIG : Config :=
  { score_threshold := 81, polling_interval := 30, api_timeout := 30 }

/-- The literal timeout passed to `requests.get` in `fetch_new_tokens`
(source line 101). -/
def new_tokens_timeout : Int := 30

/-- The literal timeout passed to `requests.get` in `fetch_token_summary`
(source line 112). -/
def summary_fetch_timeout : Int := 30

/-- Option 1 of `edit_configuration` (lines 307-317): accept 1-100, update
and save; otherwise report a failure and keep the config.  The boolean is
`true` exactly when the new value was saved. -/
def edit_threshold (c : Config) (v : Int) : Config × Bool :=
  if 1 ≤ v ∧ v ≤ 100 then ({ c with score_threshold := v }, true)
  else (c, false)

/-- Option 2 of `edit_configuration` (lines 319-329): accept 5-300. -/
def edit_interval (c : Config) (v : Int) : Config × Bool :=
  if 5 ≤ v ∧ v ≤ 300 then ({ c with polling_interval := v }, true)
  else (c, false)

/-- Option 3 of `edit_configuration` (lines 331-341): accept 10-120. -/
def edit_timeout (c : Config) (v : Int) : Config × Bool :=
  if 10 ≤ v ∧ v ≤ 120 then ({ c with api_timeout := v }, true)
  else (c, false)

/-- The observable state of `config.json`. -/
inductive ConfigFile where
  | absent : ConfigFile
  | unparsable : ConfigFile
  | parsed (j : JVal) : ConfigFile
deriving DecidableEq, Repr

/-- Source `DEFAULT_CONFIG` as the JSON value `load_config` falls back to. -/
def DEFAULT_CONFIG_JSON : JVal :=
  jobjL [("score_threshold", .jint 81),
         ("polling_interval", .jint 30),
         ("api_timeout", .jint 30)]

/-- Source `load_config()` (lines 66-75): defaults when the file is absent
(in that case the defaults are also written out, a side effect not
modelled) or unreadable/unparsable; otherwise the parsed JSON verbatim. -/
def load_config : ConfigFile → JVal
  | .absent => DEFAULT_CONFIG_JSON
  | .unparsable => DEFAULT_CONFIG_JSON
  | .parsed j => j

/-- The two subscript reads at the top of `start_monitoring` (lines
186-187): `config["score_threshold"]` and `config["polling_interval"]`.
`none` models the `KeyError` a missing key raises. -/
def monitor_start_params (config : JVal) : Option (JVal × JVal) :=
  match jget config "score_threshold", jget config "polling_interval" with
  | some t, some i => some (t, i)
  | _, _ => none

/-! ## Fixtures and invariants used by the theorems -/

/-- A store item already present in the backing file, mint `"A"`. -/
def c2StoreItem : JVal := jobjL [("mint", .jstr "A"), ("name", .jstr "old")]

/-- An entry with the same mint `"A"` but a different name. -/
def c2Entry : JVal := jobjL [("mint", .jstr "A"), ("name", .jstr "new")]

/-- A discovery token whose `symbol` key is present but empty. -/
def c8Token : JVal := jobjL [("mint", .jstr "M"), ("symbol", .jstr "")]

/-- A summary carrying a non-empty `tokenMeta.symbol`. -/
def c8Summary : JVal := jobjL [("tokenMeta", jobjL [("symbol", .jstr "RUG")])]

/-- Invariant of the monitoring loop: the trace of fetched mints is
duplicate-free and every fetched mint is in the dedup set. -/
def FetchInv (st : LoopState) : Prop :=
  st.fetched.Nodup ∧ ∀ x ∈ st.fetched, x ∈ st.processed

/-! ## Claim C1 -/

/-- Claim C1 as stated is false: it quantifies over every threshold, but
with threshold 10 the score 20 is classified `LOW` (20 > 10) even though
20 < 50, so `classify(s,t) = HIGH` is not equivalent to `s < 50`. -/
theorem c1_classify_counterexample :
    classify_risk (some 20) 10 = "LOW" ∧ (20 : Int) < 50 ∧
    classify_risk (some 20) 10 ≠ "HIGH" := by decide

/-- Claim C1, amended: for thresholds of at least 50 (the only regime the
classifier's band structure is coherent in, cf. the spec's open question),
`classify` returns `LOW` iff score > threshold, `MEDIUM` iff
50 ≤ score ≤ threshold, `HIGH` iff score < 50, and `UNKNOWN` on an absent
score. -/
theorem c1_classify_amended (s t : Int) (h : 50 ≤ t) :
    (classify_risk (some s) t = "LOW" ↔ t < s) ∧
    (classify_risk (some s) t = "MEDIUM" ↔ 50 ≤ s ∧ s ≤ t) ∧
    (classify_risk (some s) t = "HIGH" ↔ s < 50) ∧
    classify_risk none t = "UNKNOWN" := by
  by_cases h1 : t < s
  · have e : classify_risk (some s) t = "LOW" := by
      simp [classify_risk, h1]
    refine ⟨⟨fun _ => h1, fun _ => e⟩, ?_, ?_, rfl⟩
    · constructor
      · intro hc; rw [e] at hc; exact absurd hc (by decide)
      · intro hc; omega
    · constructor
      · intro hc; rw [e] at hc; exact absurd hc (by decide)
      · intro hc; omega
  · by_cases h2 : 50 ≤ s
    · have e : classify_risk (some s) t = "MEDIUM" := by
        simp only [classify_risk, gt_iff_lt, ge_iff_le, if_neg h1, if_pos h2]
      refine ⟨?_, ⟨fun _ => ⟨h2, not_lt.mp h1⟩, fun _ => e⟩, ?_, rfl⟩
      · constructor
        · intro hc; rw [e] at hc; exact absurd hc (by decide)
        · intro hc; omega
      · constructor
        · intro hc; rw [e] at hc; exact absurd hc (by decide)
        · intro hc; omega
    · have e : classify_risk (some s) t = "HIGH" := by
        simp only [classify_risk, gt_iff_lt, ge_iff_le, if_neg h1, if_neg h2]
      refine ⟨?_, ?_, ⟨fun _ => by omega, fun _ => e⟩, rfl⟩
      · constructor
        · intro hc; rw [e] at hc; exact absurd hc (by decide)
        · intro hc; omega
      · constructor
        · intro hc; rw [e] at hc; exact absurd hc (by decide)
        · intro hc; omega

/-- Claim C1 witness: the amended classification law applied at score 95,
threshold 81. -/
theorem c1_classify_amended_witness :
    (classify_risk (some 95) 81 = "LOW" ↔ (81 : Int) < 95) ∧
    (classify_risk (some 95) 81 = "MEDIUM" ↔ (50 : Int) ≤ 95 ∧ (95 : Int) ≤ 81) ∧
    (classify_risk (some 95) 81 = "HIGH" ↔ (95 : Int) < 50) ∧
    classify_risk none 81 = "UNKNOWN" :=
  c1_classify_amended 95 81 (by decide)

/-! ## Claim C2 -/

/-- Only dicts can carry a mint: `jget` on a non-object is `none`. -/
theorem jget_eq_none_of_isObj_false (it : JVal) (k : String)
    (h : isObj it = false) : jget it k = none := by
  cases it with
  | jobj fields => simp [isObj] at h
  | jnull => rfl
  | jstr s => rfl
  | jint n => rfl
  | jarr elems => rfl

/-- The mint of any dict item of the store is in the store's mint set. -/
theorem mem_mintsOf_of_mem {it : JVal} {s : List JVal}
    (hmem : it ∈ s) (hobj : isObj it = true) :
    jget it "mint" ∈ mintsOf s :=
  List.mem_filterMap.mpr ⟨it, hmem, by simp [hobj]⟩

/-- Lemma: `mintsOf` distributes over append. -/
theorem mintsOf_append (s1 s2 : List JVal) :
    mintsOf (s1 ++ s2) = mintsOf s1 ++ mintsOf s2 :=
  List.filterMap_append s1 s2 _

/-- Claim C2 as stated is false: against a backing file that already holds
an entry with mint `"A"`, appending a different entry with mint `"A"`
twice leaves only the pre-existing entry, which does not keep the field
values of the first append (`name` stays `"old"`, not `"new"`). -/
theorem c2_append_counterexample :
    append_if_not_exists (append_if_not_exists [c2StoreItem] c2Entry) c2Entry
      = [c2StoreItem] ∧
    jget c2StoreItem "name" = some (.jstr "old") ∧
    jget c2Entry "name" = some (.jstr "new") ∧
    c2StoreItem ≠ c2Entry := by decide

/-- Claim C2, amended: for every backing-file state with no stored entry
carrying the mint, appending an object entry with that mint and then any
entry with the same mint leaves the file as after the first append alone
(the second append changes nothing), and the entries holding that mint are
exactly the first appended entry. -/
theorem c2_append_amended (s : List JVal) (e eSnd m : JVal)
    (hobj : isObj e = true)
    (hm : jget e "mint" = some m)
    (hmSnd : jget eSnd "mint" = some m)
    (habs : some m ∉ mintsOf s) :
    append_if_not_exists (append_if_not_exists s e) eSnd
      = append_if_not_exists s e ∧
    (append_if_not_exists (append_if_not_exists s e) eSnd).filter
      (fun it => decide (jget it "mint" = some m)) = [e] := by
  have h1 : append_if_not_exists s e = s ++ [e] := by
    unfold append_if_not_exists
    rw [hm, if_neg habs]
  have hmem : some m ∈ mintsOf (s ++ [e]) := by
    rw [mintsOf_append]
    refine List.mem_append_right _ ?_
    simp [mintsOf, hobj, hm]
  have h2 : append_if_not_exists (s ++ [e]) eSnd = s ++ [e] := by
    unfold append_if_not_exists
    rw [hmSnd, if_pos hmem]
  constructor
  · rw [h1, h2]
  · rw [h1, h2, List.filter_append]
    have hs : s.filter (fun it => decide (jget it "mint" = some m)) = [] := by
      rw [List.filter_eq_nil_iff]
      intro it hit
      by_cases hob : isObj it
      · intro hc
        exact habs (of_decide_eq_true hc ▸ mem_mintsOf_of_mem hit hob)
      · simp [jget_eq_none_of_isObj_false it "mint" (Bool.eq_false_iff.mpr hob)]
    rw [hs]
    simp [hm]

/-- Claim C2 witness: against an empty backing file, appending the mint-"A"
entry twice keeps the file at exactly that one entry. -/
theorem c2_append_amended_witness :
    append_if_not_exists (append_if_not_exists [] c2Entry) c2Entry
      = append_if_not_exists [] c2Entry ∧
    (append_if_not_exists (append_if_not_exists [] c2Entry) c2Entry).filter
      (fun it => decide (jget it "mint" = some (.jstr "A"))) = [c2Entry] :=
  c2_append_amended [] c2Entry c2Entry (.jstr "A")
    (by decide) (by decide) (by decide) (by decide)

/-! ## Claim C3 -/

/-- Claim C3 fails on the code: a configuration whose `api_timeout` was
edited to 60 through the program's own (bounds-checked) edit path still
sees both `requests.get` calls issued with the hard-coded literal timeout
30, not the configured value. -/
theorem c3_timeout_ignores_config :
    (edit_timeout DEFAULT_CONFIG 60).2 = true ∧
    (edit_timeout DEFAULT_CONFIG 60).1.api_timeout = 60 ∧
    new_tokens_timeout = 30 ∧
    summary_fetch_timeout = 30 ∧
    new_tokens_timeout ≠ (edit_timeout DEFAULT_CONFIG 60).1.api_timeout ∧
    summary_fetch_timeout ≠ (edit_timeout DEFAULT_CONFIG 60).1.api_timeout := by
  decide

/-! ## Claim C4 -/

/-- Claim C4: when the summary fetch for a fresh, non-falsy mint returns
the unavailable result (the empty object), the loop step only adds that
mint to the dedup set and the fetch trace; the store and the emitted
reports are unchanged. -/
theorem c4_unavailable_summary (fetch : JVal → JVal) (threshold : Int)
    (now : String) (st : LoopState) (token mint : JVal)
    (hm : jget token "mint" = some mint)
    (hf : pyFalsy mint = false)
    (hp : mint ∉ st.processed)
    (hu : fetch mint = jobjL []) :
    processToken fetch threshold now st token =
      { st with processed := st.processed ++ [mint],
                fetched := st.fetched ++ [mint] } := by
  simp only [processToken, hm]
  rw [if_neg (by simp [hf, hp])]
  rw [hu]
  rfl

/-- Claim C4 witness: the loop step at a concrete token with mint `"M"`
whose summary comes back unavailable. -/
theorem c4_unavailable_summary_witness :
    processToken (fun _ => jobjL []) 81 "2026-01-01 00:00:00 UTC+01:00"
      (initialState []) (jobjL [("mint", .jstr "M")]) =
      { initialState [] with
          processed := (initialState []).processed ++ [.jstr "M"],
          fetched := (initialState []).fetched ++ [.jstr "M"] } :=
  c4_unavailable_summary (fun _ => jobjL []) 81 "2026-01-01 00:00:00 UTC+01:00"
    (initialState []) (jobjL [("mint", .jstr "M")]) (.jstr "M")
    (by decide) (by decide) (by decide) rfl

/-! ## Claim C5 -/

/-- One loop step preserves the fetch invariant: a fetch only happens for
a mint outside the dedup set, and that mint enters the set at once. -/
theorem fetchInv_processToken (fetch : JVal → JVal) (threshold : Int)
    (now : String) (st : LoopState) (token : JVal)
    (h : FetchInv st) : FetchInv (processToken fetch threshold now st token) := by
  obtain ⟨hnd, hsub⟩ := h
  cases hm : jget token "mint" with
  | none =>
    simp only [processToken, hm]
    exact ⟨hnd, hsub⟩
  | some mint =>
    simp only [processToken, hm]
    by_cases hskip : pyFalsy mint = true ∨ mint ∈ st.processed
    · rw [if_pos hskip]
      exact ⟨hnd, hsub⟩
    · rw [if_neg hskip]
      push_neg at hskip
      obtain ⟨hf, hp⟩ := hskip
      have hnotf : mint ∉ st.fetched := fun hx => hp (hsub _ hx)
      have hnd' : (st.fetched ++ [mint]).Nodup := by
        refine List.Nodup.append hnd (List.nodup_singleton _) ?_
        intro a ha hb
        rw [List.mem_singleton] at hb
        exact hnotf (hb ▸ ha)
      have hsub' : ∀ x ∈ st.fetched ++ [mint], x ∈ st.processed ++ [mint] := by
        intro x hx
        rcases List.mem_append.mp hx with h1 | h1
        · exact List.mem_append_left _ (hsub _ h1)
        · exact List.mem_append_right _ h1
      by_cases hsum : pyFalsy (fetch mint) = true
      · rw [if_pos hsum]
        exact ⟨hnd', hsub'⟩
      · rw [if_neg hsum]
        exact ⟨hnd', hsub'⟩

/-- Folding loop steps over a token list preserves the fetch invariant. -/
theorem fetchInv_foldl (fetch : JVal → JVal) (threshold : Int) (now : String) :
    ∀ (tokens : List JVal) (st : LoopState), FetchInv st →
      FetchInv (tokens.foldl (processToken fetch threshold now) st)
  | [], _, h => h
  | t :: ts, st, h =>
      fetchInv_foldl fetch threshold now ts _
        (fetchInv_processToken fetch threshold now st t h)

/-- Folding whole polling cycles preserves the fetch invariant. -/
theorem fetchInv_runCycles (fetch : JVal → JVal) (threshold : Int) :
    ∀ (cycles : List (String × List JVal)) (st : LoopState), FetchInv st →
      FetchInv (runCycles fetch threshold st cycles)
  | [], _, h => h
  | c :: cs, st, h =>
      fetchInv_runCycles fetch threshold cs _
        (fetchInv_foldl fetch threshold c.1 c.2 st h)

/-- Claim C5: over any whole monitoring run — any sequence of polling
cycles, each with its timestamp and discovery result — the trace of mints
whose summary was fetched is duplicate-free: no mint is ever fetched
twice within one run. -/
theorem c5_summary_fetched_at_most_once (fetch : JVal → JVal)
    (threshold : Int) (store0 : List JVal)
    (cycles : List (String × List JVal)) :
    (runCycles fetch threshold (initialState store0) cycles).fetched.Nodup :=
  (fetchInv_runCycles fetch threshold cycles (initialState store0)
    ⟨List.nodup_nil, by intro x hx; exact absurd hx (List.not_mem_nil x)⟩).1

/-! ## Claim C6 -/

/-- Claim C6: an absent or corrupt backing file is read as the empty
collection and the append succeeds (here landing the entry as the sole
item), while a filesystem error during the write — which only happens when
the entry is actually new — propagates as an error to the caller. -/
theorem c6_store_failure_semantics (entry : JVal) (fs : FileState)
    (h : jget entry "mint" ∉ mintsOf (load_json fs)) :
    load_json .absent = [] ∧
    load_json .corrupt = [] ∧
    append_if_not_exists_disk true .absent entry = .ok (.content [entry]) ∧
    append_if_not_exists_disk true .corrupt entry = .ok (.content [entry]) ∧
    append_if_not_exists_disk false fs entry = .error () := by
  refine ⟨rfl, rfl, ?_, ?_, ?_⟩
  · simp [append_if_not_exists_disk, load_json, mintsOf, save_json_disk]
  · simp [append_if_not_exists_disk, load_json, mintsOf, save_json_disk]
  · simp [append_if_not_exists_disk, save_json_disk, h]

/-- Claim C6 witness: the failure semantics at a concrete entry against an
empty stored collection. -/
theorem c6_store_failure_semantics_witness :
    load_json .absent = [] ∧
    load_json .corrupt = [] ∧
    append_if_not_exists_disk true .absent (jobjL [("mint", .jstr "B")])
      = .ok (.content [jobjL [("mint", .jstr "B")]]) ∧
    append_if_not_exists_disk true .corrupt (jobjL [("mint", .jstr "B")])
      = .ok (.content [jobjL [("mint", .jstr "B")]]) ∧
    append_if_not_exists_disk false (.content []) (jobjL [("mint", .jstr "B")])
      = .error () :=
  c6_store_failure_semantics (jobjL [("mint", .jstr "B")]) (.content [])
    (by decide)

/-! ## Claim C7 -/

/-- Claim C7: each configuration edit rejects out-of-bounds values — the
configuration is returned unchanged with the saved flag `false` (the
validation-failure report) — and accepts in-bounds values, updating
exactly that setting and saving (flag `true`). -/
theorem c7_edit_config_bounds (c : Config) (v : Int) :
    (¬(1 ≤ v ∧ v ≤ 100) → edit_threshold c v = (c, false)) ∧
    ((1 ≤ v ∧ v ≤ 100) →
      edit_threshold c v = ({ c with score_threshold := v }, true)) ∧
    (¬(5 ≤ v ∧ v ≤ 300) → edit_interval c v = (c, false)) ∧
    ((5 ≤ v ∧ v ≤ 300) →
      edit_interval c v = ({ c with polling_interval := v }, true)) ∧
    (¬(10 ≤ v ∧ v ≤ 120) → edit_timeout c v = (c, false)) ∧
    ((10 ≤ v ∧ v ≤ 120) →
      edit_timeout c v = ({ c with api_timeout := v }, true)) := by
  refine ⟨fun h => ?_, fun h => ?_, fun h => ?_, fun h => ?_,
          fun h => ?_, fun h => ?_⟩ <;>
    simp [edit_threshold, edit_interval, edit_timeout, h]

/-- Claim C7 witness: threshold 150 and interval 0 are rejected without
change, timeout 121 is rejected, threshold 90 is accepted and saved. -/
theorem c7_edit_config_bounds_witness :
    edit_threshold DEFAULT_CONFIG 150 = (DEFAULT_CONFIG, false) ∧
    edit_threshold DEFAULT_CONFIG 90
      = ({ DEFAULT_CONFIG with score_threshold := 90 }, true) ∧
    edit_interval DEFAULT_CONFIG 0 = (DEFAULT_CONFIG, false) ∧
    edit_timeout DEFAULT_CONFIG 121 = (DEFAULT_CONFIG, false) :=
  ⟨(c7_edit_config_bounds DEFAULT_CONFIG 150).1 (by decide),
   (c7_edit_config_bounds DEFAULT_CONFIG 90).2.1 (by decide),
   (c7_edit_config_bounds DEFAULT_CONFIG 0).2.2.1 (by decide),
   (c7_edit_config_bounds DEFAULT_CONFIG 121).2.2.2.2.1 (by decide)⟩

/-! ## Claim C8 -/

/-- The `or` fallback keeps the left value when it is present and truthy. -/
theorem pyOr_truthy (x : Option JVal) (y v : JVal)
    (h : x = some v) (hv : pyFalsy v = false) : pyOr x y = v := by
  rw [h]
  simp [pyOr, hv]

/-- The `or` fallback yields the right value when the left is absent or
falsy. -/
theorem pyOr_fallback (x : Option JVal) (y : JVal)
    (h : x = none ∨ ∃ v, x = some v ∧ pyFalsy v = true) : pyOr x y = y := by
  rcases h with h | ⟨v, hv, hf⟩
  · rw [h]
    rfl
  · rw [hv]
    simp [pyOr, hf]

/-- Claim C8 as stated is false: a token whose `symbol` key is present but
holds the empty string still falls back to the RiskReport symbol, so the
fallback is not taken exactly when the TokenDiscovery value is absent. -/
theorem c8_fallback_counterexample :
    jget c8Token "symbol" = some (.jstr "") ∧
    entrySymbol c8Token c8Summary = .jstr "RUG" ∧
    (.jstr "RUG" : JVal) ≠ .jstr "" := by decide

/-- Claim C8, amended: in the stored entry and the console report, the
symbol and creator take TokenDiscovery's value when it is present and
truthy, and fall back to the RiskReport value exactly when TokenDiscovery's
value is absent or falsy (null or the empty string).  The symbol expression
is shared verbatim between entry and report; the creator fallbacks differ
only in their default (`""` in the entry, `"Unknown"` in the report). -/
theorem c8_fallback_amended (token summary : JVal) :
    ((∀ v, jget token "symbol" = some v → pyFalsy v = false →
        entrySymbol token summary = v) ∧
     ((jget token "symbol" = none ∨
       (∃ v, jget token "symbol" = some v ∧ pyFalsy v = true)) →
        entrySymbol token summary = token_meta_symbol summary)) ∧
    ((∀ v, jget token "creator" = some v → pyFalsy v = false →
        entryCreator token summary = v) ∧
     ((jget token "creator" = none ∨
       (∃ v, jget token "creator" = some v ∧ pyFalsy v = true)) →
        entryCreator token summary = jgetD summary "creator" (.jstr ""))) ∧
    ((∀ v, jget token "creator" = some v → pyFalsy v = false →
        reportCreator token summary = v) ∧
     ((jget token "creator" = none ∨
       (∃ v, jget token "creator" = some v ∧ pyFalsy v = true)) →
        reportCreator token summary = jgetD summary "creator" (.jstr "Unknown"))) :=
  ⟨⟨fun _ h hv => pyOr_truthy _ _ _ h hv, fun h => pyOr_fallback _ _ h⟩,
   ⟨fun _ h hv => pyOr_truthy _ _ _ h hv, fun h => pyOr_fallback _ _ h⟩,
   ⟨fun _ h hv => pyOr_truthy _ _ _ h hv, fun h => pyOr_fallback _ _ h⟩⟩

/-- Claim C8 witness: a truthy TokenDiscovery symbol wins; an absent
TokenDiscovery creator falls back to the RiskReport creator. -/
theorem c8_fallback_amended_witness :
    entrySymbol (jobjL [("symbol", .jstr "T")]) (jobjL [("creator", .jstr "C")])
      = .jstr "T" ∧
    entryCreator (jobjL [("symbol", .jstr "T")]) (jobjL [("creator", .jstr "C")])
      = jgetD (jobjL [("creator", .jstr "C")]) "creator" (.jstr "") :=
  ⟨(c8_fallback_amended (jobjL [("symbol", .jstr "T")])
      (jobjL [("creator", .jstr "C")])).1.1 (.jstr "T") (by decide) (by decide),
   (c8_fallback_amended (jobjL [("symbol", .jstr "T")])
      (jobjL [("creator", .jstr "C")])).2.1.2 (Or.inl (by decide))⟩

/-! ## Claim C9 -/

/-- Claim C9: a 200 response with an empty JSON object body makes
`fetch_token_summary` return that empty object verbatim, and the loop
step treats it exactly like an unavailable report — the mint is marked
processed, nothing is stored, no report is emitted. -/
theorem c9_empty_body_treated_unavailable (threshold : Int) (now : String)
    (st : LoopState) (token mint : JVal)
    (hm : jget token "mint" = some mint)
    (hf : pyFalsy mint = false)
    (hp : mint ∉ st.processed) :
    fetch_token_summary (some (200, jobjL [])) = jobjL [] ∧
    processToken (fun _ => fetch_token_summary (some (200, jobjL [])))
        threshold now st token =
      { st with processed := st.processed ++ [mint],
                fetched := st.fetched ++ [mint] } := by
  refine ⟨rfl, ?_⟩
  simp only [processToken, hm]
  rw [if_neg (by simp [hf, hp])]
  rfl

/-- Claim C9 witness: the empty-body-200 behaviour at a concrete token. -/
theorem c9_empty_body_treated_unavailable_witness :
    fetch_token_summary (some (200, jobjL [])) = jobjL [] ∧
    processToken (fun _ => fetch_token_summary (some (200, jobjL [])))
        81 "2026-01-01 00:00:00 UTC+01:00" (initialState [])
        (jobjL [("mint", .jstr "M")]) =
      { initialState [] with
          processed := (initialState []).processed ++ [.jstr "M"],
          fetched := (initialState []).fetched ++ [.jstr "M"] } :=
  c9_empty_body_treated_unavailable 81 "2026-01-01 00:00:00 UTC+01:00"
    (initialState []) (jobjL [("mint", .jstr "M")]) (.jstr "M")
    (by decide) (by decide) (by decide)

/-! ## Claim C10 -/

/-- Claim C10: `load_config` returns any parsable configuration verbatim —
no key, type, or bounds validation and no merging with the defaults — and
the monitor's startup subscripts then fail with a lookup error (`none`)
whenever `score_threshold` or `polling_interval` is missing, instead of
falling back to the defaults. -/
theorem c10_config_no_validation (j jBad : JVal)
    (h : jget jBad "score_threshold" = none ∨
         jget jBad "polling_interval" = none) :
    load_config (.parsed j) = j ∧
    monitor_start_params (load_config (.parsed jBad)) = none := by
  refine ⟨rfl, ?_⟩
  show monitor_start_params jBad = none
  rcases h with h | h
  · cases hy : jget jBad "polling_interval" <;>
      simp [monitor_start_params, h, hy]
  · cases hx : jget jBad "score_threshold" <;>
      simp [monitor_start_params, h, hx]

/-- Claim C10 witness: the defaults file content round-trips verbatim, and
a parsable empty configuration object makes the monitor startup reads
fail. -/
theorem c10_config_no_validation_witness :
    load_config (.parsed DEFAULT_CONFIG_JSON) = DEFAULT_CONFIG_JSON ∧
    monitor_start_params (load_config (.parsed (jobjL []))) = none :=
  c10_config_no_validation DEFAULT_CONFIG_JSON (jobjL []) (Or.inl (by decide))
